import Mathlib

/-!
Verification development for the NGAP mock-AMF / SCTP-TCP bridge harness.

Bytes are modelled as `Nat` values below 256, byte strings as `List Nat`.
Each definition is a shallow embedding of the Python function named in its
doc comment (files `scripts/mock_amf.py` and `scripts/sctp_to_tcp_bridge.py`).
-/

/-- Decoded NGAP header, modelling the dict returned by
`NGAPMessage.decode_header` (mock_amf.py lines 30-34): fields
`procedure_code`, `criticality` and the 16-bit big-endian `length`. -/
structure NGAPHeader where
  procedure_code : Nat
  criticality : Nat
  length : Nat
deriving DecidableEq

/-- NGAP procedure code for NG Setup Request (mock_amf.py line 20). -/
def NGAPMessage.NG_SETUP_REQUEST : Nat := 21

/-- Embedding of `NGAPMessage.decode_header` (mock_amf.py lines 24-34):
returns `none` when fewer than 4 bytes are supplied, otherwise byte 0 is the
procedure code, byte 1 the criticality, and bytes 2-3 the big-endian 16-bit
length (`struct.unpack` of two bytes is `256 * b2 + b3`). -/
def NGAPMessage.decode_header (data : List Nat) : Option NGAPHeader :=
  if data.length < 4 then
    none
  else
    some { procedure_code := data.getD 0 0
           criticality := data.getD 1 0
           length := 256 * data.getD 2 0 + data.getD 3 0 }

/-- Embedding of `NGAPMessage.create_ng_setup_response` (mock_amf.py lines
36-63): the fixed successful-outcome byte template, copied literally from the
bytearray literal. -/
def NGAPMessage.create_ng_setup_response : List Nat :=
  [0x20, 0x15,
   0x00, 0x2e,
   0x00, 0x00, 0x04,
   0x00, 0x01,
   0x00, 0x0a,
   0x00, 0x08, 0x6d, 0x6f, 0x63, 0x6b, 0x2d, 0x61, 0x6d, 0x66,
   0x00, 0x60,
   0x00, 0x0e,
   0x00, 0x0c,
   0x00, 0x00, 0x01,
   0x01,
   0x02,
   0x00, 0x01,
   0x00,
   0x00, 0x56,
   0x40, 0x01,
   0xff]

/-- Embedding of `NGAPMessage.create_ng_setup_failure` (mock_amf.py lines
65-78), applied to the UTF-8 encoding of the cause string (`cause_bytes`).
The Python `bytearray([...])` literal raises `ValueError` when any element is
outside `range(0, 256)`; the two computed elements are `len(cause_bytes) + 8`
(overall length byte) and `len(cause_bytes) + 1` (cause-length byte), so the
embedding returns `none` exactly when one of them exceeds 255. Otherwise the
result is the 12-byte literal followed by the raw cause bytes
(`response.extend(cause_bytes)`). -/
def NGAPMessage.create_ng_setup_failure (cause_bytes : List Nat) : Option (List Nat) :=
  if cause_bytes.length + 8 ≤ 255 ∧ cause_bytes.length + 1 ≤ 255 then
    some ([0x40, 0x15,
           0x00, cause_bytes.length + 8,
           0x00, 0x00, 0x01,
           0x00, 0x0f,
           0x40, cause_bytes.length + 1,
           0x00] ++ cause_bytes)
  else
    none

/-- UTF-8 bytes of the default cause string of `create_ng_setup_failure`
(mock_amf.py line 66, `cause="Unknown PLMN"`, 12 ASCII bytes). -/
def NGAPMessage.unknownPLMNBytes : List Nat :=
  [0x55, 0x6e, 0x6b, 0x6e, 0x6f, 0x77, 0x6e, 0x20, 0x50, 0x4c, 0x4d, 0x4e]

/-- The failure template actually sent by the handler, that is
`create_ng_setup_failure` at its default cause (mock_amf.py line 107). The
default cause has 12 bytes, so the builder succeeds; `getD []` unwraps it. -/
def NGAPMessage.defaultFailure : List Nat :=
  (NGAPMessage.create_ng_setup_failure NGAPMessage.unknownPLMNBytes).getD []

/-- Embedding of `MockAMF.handle_ng_setup_request` (mock_amf.py lines
93-110): if `len(data) > 4 and data[0] == 0x00 and data[1] == 0x15` it sends
the success template and returns `True`, otherwise it sends the failure
template with the default cause and returns `False`. The returned pair is
(bytes sent on the connection, returned boolean). -/
def MockAMF.handle_ng_setup_request (data : List Nat) : List Nat × Bool :=
  if 4 < data.length ∧ data.getD 0 0 = 0x00 ∧ data.getD 1 0 = 0x15 then
    (NGAPMessage.create_ng_setup_response, true)
  else
    (NGAPMessage.defaultFailure, false)

/-- Outcome of one `conn.recv(4096)` call in `MockAMF.handle_ngap_connection`
(mock_amf.py lines 127-154): either data was received (possibly empty, which
signals peer close), the 5-second timeout fired, or another exception was
raised. -/
inductive RecvResult where
  | received (data : List Nat) : RecvResult
  | timedOut : RecvResult
  | ioError : RecvResult
deriving DecidableEq

/-- Embedding of the message-dispatch block of `MockAMF.handle_ngap_connection`
(mock_amf.py lines 136-145) for one non-empty received datum: when setup is
not yet complete and `len(data) > 4`, the header is decoded and, when the
decoded procedure code equals `NG_SETUP_REQUEST`, `handle_ng_setup_request`
runs; in every other case (short or 4-byte data, header code different from
21, setup already complete) the `else` branch only logs ("Echoing message")
and sends nothing. Result: (list of messages sent, new `ng_setup_complete`). -/
def MockAMF.processMessage (ng_setup_complete : Bool) (data : List Nat) :
    List (List Nat) × Bool :=
  if ng_setup_complete = false ∧ 4 < data.length then
    match NGAPMessage.decode_header data with
    | some header =>
      if header.procedure_code = NGAPMessage.NG_SETUP_REQUEST then
        let r := MockAMF.handle_ng_setup_request data
        ([r.1], r.2)
      else
        ([], ng_setup_complete)
    | none => ([], ng_setup_complete)
  else
    ([], ng_setup_complete)

/-- Keepalive payload sent on receive timeout once setup completed
(mock_amf.py line 151). -/
def MockAMF.keepalive : List Nat := [0x00, 0x00, 0x00, 0x00]

/-- Embedding of one iteration of the receive loop of
`MockAMF.handle_ngap_connection` (mock_amf.py lines 123-154). Result:
(messages sent during the iteration, new `ng_setup_complete`, whether the
loop continues). The loop stops when the running flag is cleared, on an
empty read (peer closed) or on a non-timeout exception; a timeout sends the
keepalive only after setup completed. -/
def MockAMF.connectionStep (running ng_setup_complete : Bool) (r : RecvResult) :
    List (List Nat) × Bool × Bool :=
  if running = false then
    ([], ng_setup_complete, false)
  else
    match r with
    | .received data =>
      if data = [] then
        ([], ng_setup_complete, false)
      else
        let p := MockAMF.processMessage ng_setup_complete data
        (p.1, p.2, true)
    | .timedOut =>
      if ng_setup_complete then
        ([MockAMF.keepalive], ng_setup_complete, true)
      else
        ([], ng_setup_complete, true)
    | .ioError => ([], ng_setup_complete, false)

/-- Connection handle as far as shutdown is concerned: whether `close()`
raises, and whether the handle has been closed. -/
structure Conn where
  closeFails : Bool
  closed : Bool
deriving DecidableEq

/-- Fallible `close()` on a handle: `none` models a raised exception. -/
def Conn.closeAttempt (c : Conn) : Option Conn :=
  if c.closeFails then none else some { c with closed := true }

/-- Python dict assignment `d[k] = v` on an association list: replaces the
value when the key is present, otherwise appends the binding. -/
def dictSet : List (String × Conn) → String → Conn → List (String × Conn)
  | [], cid, c => [(cid, c)]
  | (k, v) :: rest, cid, c =>
    if k = cid then (k, c) :: rest else (k, v) :: dictSet rest cid c

/-- Python `k in d` membership test on an association list. -/
def dictHasKey (r : List (String × Conn)) (cid : String) : Bool :=
  r.any (fun p => p.1 == cid)

/-- Python `del d[k]` on an association list (removes every binding of the
key; keys are unique in the registry). -/
def dictDel (r : List (String × Conn)) (cid : String) : List (String × Conn) :=
  r.filter (fun p => p.1 != cid)

/-- Registry insertion performed on entry of `MockAMF.handle_ngap_connection`
(mock_amf.py lines 117-118): `self.connections[conn_id] = conn` under the
lock. -/
def MockAMF.registerConnection (r : List (String × Conn)) (cid : String) (c : Conn) :
    List (String × Conn) :=
  dictSet r cid c

/-- Registry removal performed in the `finally` block of
`MockAMF.handle_ngap_connection` (mock_amf.py lines 159-161):
`if conn_id in self.connections: del self.connections[conn_id]` under the
lock. -/
def MockAMF.unregisterConnection (r : List (String × Conn)) (cid : String) :
    List (String × Conn) :=
  if dictHasKey r cid then dictDel r cid else r

/-- Registry effect of the bridge's per-connection handler
`SCTPBridge.handle_tcp_to_sctp` together with `SCTPBridge.handle_mock_amf`
(sctp_to_tcp_bridge.py lines 47-126): neither function reads or writes
`self.connections` anywhere in its body, so the registry the bridge
initialises at line 25 is left untouched by every accepted connection. -/
def SCTPBridge.registryEffect (r : List (String × Conn)) : List (String × Conn) :=
  r

/-- Embedding of the close loop of `MockAMF.stop` (mock_amf.py lines
211-215): each handle's `close()` is attempted inside `try ... except: pass`,
so a raising close leaves that handle as it was and the loop always reaches
the next entry. -/
def MockAMF.stopCloseLoop : List (String × Conn) → List Conn
  | [] => []
  | (_, c) :: rest =>
    (match c.closeAttempt with
     | some c2 => c2
     | none => c) :: MockAMF.stopCloseLoop rest

/-- Embedding of the registry part of `MockAMF.stop` (mock_amf.py lines
204-216): under the lock, every tracked handle is close-attempted with
failures swallowed, then `self.connections.clear()` runs unconditionally.
Result: (handles after the close attempts, registry after `clear()`). -/
def MockAMF.stop (connections : List (String × Conn)) :
    List Conn × List (String × Conn) :=
  (MockAMF.stopCloseLoop connections, [])

/-- Byte streams of a bridged connection pair: `tcpIn`/`sctpIn` are the bytes
pending to be read from each peer, `tcpOut`/`sctpOut` the bytes written to
each handle so far. -/
structure BridgeConns where
  tcpIn : List Nat
  sctpIn : List Nat
  tcpOut : List Nat
  sctpOut : List Nat
deriving DecidableEq

/-- Embedding of one iteration of the forwarding loop of
`SCTPBridge.handle_tcp_to_sctp` (sctp_to_tcp_bridge.py lines 60-84):
`select` reported readability of the TCP and SCTP handles and whether an
exceptional condition is pending; when the TCP side is readable, up to 4096
bytes are read (`recv(4096)`) and, unless the read is empty (which breaks the
loop), appended unmodified to the SCTP side; then symmetrically for the SCTP
side; finally a pending exceptional condition breaks the loop. Result:
(updated streams, whether the loop continues). -/
def SCTPBridge.forwardStep (running tcpReadable sctpReadable exceptional : Bool)
    (st : BridgeConns) : BridgeConns × Bool :=
  if running = false then
    (st, false)
  else
    let afterTcp : BridgeConns × Bool :=
      if tcpReadable then
        let data := st.tcpIn.take 4096
        if data = [] then (st, false)
        else ({ st with tcpIn := st.tcpIn.drop 4096, sctpOut := st.sctpOut ++ data }, true)
      else (st, true)
    if afterTcp.2 = false then
      (afterTcp.1, false)
    else
      let st1 := afterTcp.1
      let afterSctp : BridgeConns × Bool :=
        if sctpReadable then
          let data := st1.sctpIn.take 4096
          if data = [] then (st1, false)
          else ({ st1 with sctpIn := st1.sctpIn.drop 4096, tcpOut := st1.tcpOut ++ data }, true)
        else (st1, true)
      if afterSctp.2 = false then
        (afterSctp.1, false)
      else
        (afterSctp.1, exceptional = false)

/-- Environment of one wake of the forwarding loop: the running flag and the
outcome of the 1-second `select` call (sctp_to_tcp_bridge.py lines 62-64). -/
structure WakeEvent where
  running : Bool
  tcpReadable : Bool
  sctpReadable : Bool
  exceptional : Bool
deriving DecidableEq

/-- The forwarding loop of `SCTPBridge.handle_tcp_to_sctp` over a finite
schedule of wakes: iterates `forwardStep` until it signals termination or the
schedule ends. -/
def SCTPBridge.forwardLoop : List WakeEvent → BridgeConns → BridgeConns
  | [], st => st
  | e :: rest, st =>
    let r := SCTPBridge.forwardStep e.running e.tcpReadable e.sctpReadable e.exceptional st
    if r.2 then SCTPBridge.forwardLoop rest r.1 else r.1

/-- Final state of a bridged connection after `handle_tcp_to_sctp` returns:
the byte streams plus whether each handle was closed. -/
structure BridgeOutcome where
  conns : BridgeConns
  sctpClosed : Bool
  tcpClosed : Bool
deriving DecidableEq

/-- Embedding of the bridge-mode body of `SCTPBridge.handle_tcp_to_sctp`
(sctp_to_tcp_bridge.py lines 59-97): the forwarding loop runs inside
`try ... finally: sctp_sock.close()`, and `tcp_conn.close()` runs at line 96
after the try-block, so after the loop ends (for whatever reason) both the
outbound SCTP handle and the inbound TCP handle are closed. -/
def SCTPBridge.handleBridged (events : List WakeEvent) (st : BridgeConns) :
    BridgeOutcome :=
  { conns := SCTPBridge.forwardLoop events st
    sctpClosed := true
    tcpClosed := true }

/-- A potentially blocking call site, with the timeout (in milliseconds)
configured on the object it blocks on, or `none` when the call site has no
configured timeout and therefore blocks indefinitely. -/
inductive BlockingOp where
  | acceptWait (timeoutMs : Option Nat) : BlockingOp
  | selectWait (timeoutMs : Option Nat) : BlockingOp
  | recvWait (timeoutMs : Option Nat) : BlockingOp
deriving DecidableEq

/-- Configured timeout of a blocking call site. -/
def BlockingOp.timeoutMs : BlockingOp → Option Nat
  | .acceptWait t => t
  | .selectWait t => t
  | .recvWait t => t

/-- Blocking call sites of the accept loop of `MockAMF.start` (mock_amf.py
lines 179-182): `sock.settimeout(1.0)` immediately precedes `sock.accept()`,
so the accept wait is bounded by 1000 ms. -/
def MockAMF.acceptLoopOps : List BlockingOp := [.acceptWait (some 1000)]

/-- Blocking call sites of the receive loop of
`MockAMF.handle_ngap_connection` (mock_amf.py lines 124-129):
`conn.settimeout(5.0)` precedes every `conn.recv(4096)`, so each receive is
bounded by 5000 ms. -/
def MockAMF.receiveOps : List BlockingOp := [.recvWait (some 5000)]

/-- Blocking call sites of the accept loop of `SCTPBridge.start`
(sctp_to_tcp_bridge.py lines 154-157): `tcp_sock.settimeout(1.0)` precedes
`tcp_sock.accept()`. -/
def SCTPBridge.acceptLoopOps : List BlockingOp := [.acceptWait (some 1000)]

/-- Blocking call site of the forwarding loop of
`SCTPBridge.handle_tcp_to_sctp` (sctp_to_tcp_bridge.py lines 62-64): the
`select.select` call carries an explicit 1.0-second timeout argument. The
subsequent `recv(4096)` calls run only on handles `select` reported readable,
so they do not block. -/
def SCTPBridge.forwarderOps : List BlockingOp := [.selectWait (some 1000)]

/-- Blocking call sites of `SCTPBridge.handle_mock_amf`
(sctp_to_tcp_bridge.py lines 99-123): the first `conn.recv(4096)` at line 103
and the loop `conn.recv(4096)` at line 116. No `settimeout` call is ever made
on `conn` anywhere in the bridge, and a socket returned by `accept()` is
blocking with no timeout regardless of the listener's timeout, so both
receives have no configured timeout (the `except socket.timeout` arm at line
120 is unreachable). -/
def SCTPBridge.mockModeReceiveOps : List BlockingOp :=
  [.recvWait none, .recvWait none]

/-! ## Helper lemmas -/

theorem dictHasKey_dictSet (r : List (String × Conn)) (cid : String) (c : Conn) :
    dictHasKey (dictSet r cid c) cid = true := by
  induction r with
  | nil => simp [dictSet, dictHasKey]
  | cons p rest ih =>
    obtain ⟨k, v⟩ := p
    by_cases hk : k = cid
    · simp [dictSet, hk, dictHasKey]
    · simp only [dictSet, if_neg hk, dictHasKey, List.any_cons]
      simp only [dictHasKey] at ih
      simp [ih]

theorem dictHasKey_dictDel (r : List (String × Conn)) (cid : String) :
    dictHasKey (dictDel r cid) cid = false := by
  induction r with
  | nil => rfl
  | cons p rest ih =>
    obtain ⟨k, v⟩ := p
    by_cases hk : k = cid
    · simp [dictDel, dictHasKey, hk, ih]
    · simp [dictDel, dictHasKey, hk, ih]

/-! ## Claim theorems -/

/-- C2: `decode_header` returns `none` for every input shorter than 4 bytes;
for every input of length at least 4 it returns the header whose procedure
code is byte 0, criticality byte 1 and length the big-endian 16-bit value of
bytes 2-3; and it does not validate the declared length against the remaining
payload size (a 4-byte input may declare length 65535 with 0 bytes left). -/
theorem C2_decode_header :
    (∀ data : List Nat,
      (data.length < 4 → NGAPMessage.decode_header data = none) ∧
      (4 ≤ data.length →
        NGAPMessage.decode_header data =
          some { procedure_code := data.getD 0 0
                 criticality := data.getD 1 0
                 length := 256 * data.getD 2 0 + data.getD 3 0 })) ∧
    (∃ d : List Nat, ∃ h : NGAPHeader,
      NGAPMessage.decode_header d = some h ∧ h.length ≠ d.length - 4) := by
  constructor
  · intro data
    constructor
    · intro h
      simp [NGAPMessage.decode_header, h]
    · intro h
      simp [NGAPMessage.decode_header, Nat.not_lt.mpr h]
  · exact ⟨[21, 0, 255, 255], ⟨21, 0, 65535⟩, by decide, by decide⟩

/-- Witness for C2 at concrete inputs: a 2-byte input decodes to `none`, and
a 5-byte input decodes to its first two bytes and big-endian length. -/
theorem C2_witness :
    NGAPMessage.decode_header [1, 2] = none ∧
    NGAPMessage.decode_header [21, 64, 1, 2, 9] =
      some { procedure_code := 21, criticality := 64, length := 258 } := by
  refine ⟨(C2_decode_header.1 [1, 2]).1 (by decide), ?_⟩
  exact ((C2_decode_header.1 [21, 64, 1, 2, 9]).2 (by decide)).trans (by decide)

/-- C10: `create_ng_setup_response` is the fixed 40-byte template in which
the declared big-endian length field at bytes 2-3 holds 46 while only 36
bytes follow that field, so the declared length differs from the actual
remaining payload size. -/
theorem C10_response_template :
    NGAPMessage.create_ng_setup_response.length = 40 ∧
    NGAPMessage.decode_header NGAPMessage.create_ng_setup_response =
      some { procedure_code := 0x20, criticality := 0x15, length := 46 } ∧
    (NGAPMessage.create_ng_setup_response.drop 4).length = 36 ∧
    (46 : Nat) ≠ 36 := by
  decide

/-- Counterexample to C3: a cause of 250 bytes satisfies the claimed
precondition (encoding at most 254 bytes), yet `create_ng_setup_failure`
fails, because the overall message-length byte `len(cause) + 8 = 258` is
outside the representable byte range. -/
theorem C3_counterexample :
    (List.replicate 250 0x61).length ≤ 254 ∧
    NGAPMessage.create_ng_setup_failure (List.replicate 250 0x61) = none := by
  constructor
  · rw [List.length_replicate]
    omega
  · simp only [NGAPMessage.create_ng_setup_failure, List.length_replicate]
    rw [if_neg (by omega : ¬(250 + 8 ≤ 255 ∧ 250 + 1 ≤ 255))]

/-- C3 (amended): for every cause whose encoding is at most 247 bytes,
`create_ng_setup_failure` executes without error and returns a byte sequence
in which the overall-length byte is `len + 8`, the cause-length byte is
`len + 1`, and every byte lies in the representable range 0..255. -/
theorem C3_amended (cause_bytes : List Nat)
    (hlen : cause_bytes.length ≤ 247)
    (hbytes : ∀ b ∈ cause_bytes, b ≤ 255) :
    ∃ bs : List Nat,
      NGAPMessage.create_ng_setup_failure cause_bytes = some bs ∧
      bs.getD 3 0 = cause_bytes.length + 8 ∧
      bs.getD 10 0 = cause_bytes.length + 1 ∧
      ∀ b ∈ bs, b ≤ 255 := by
  refine ⟨[0x40, 0x15, 0x00, cause_bytes.length + 8, 0x00, 0x00, 0x01, 0x00,
           0x0f, 0x40, cause_bytes.length + 1, 0x00] ++ cause_bytes, ?_, ?_, ?_, ?_⟩
  · simp only [NGAPMessage.create_ng_setup_failure]
    rw [if_pos ⟨by omega, by omega⟩]
  · simp [List.getD, List.cons_append]
  · simp [List.getD, List.cons_append]
  · intro b hb
    rw [List.mem_append] at hb
    rcases hb with hb | hb
    · simp only [List.mem_cons, List.not_mem_nil, or_false] at hb
      rcases hb with h | h | h | h | h | h | h | h | h | h | h | h <;> omega
    · exact hbytes b hb

/-- Witness for C3 (amended) at the one-byte cause 0x58 ("X"). -/
theorem C3_witness :
    ∃ bs : List Nat,
      NGAPMessage.create_ng_setup_failure [0x58] = some bs ∧
      bs.getD 3 0 = List.length [0x58] + 8 ∧
      bs.getD 10 0 = List.length [0x58] + 1 ∧
      ∀ b ∈ bs, b ≤ 255 :=
  C3_amended [0x58] (by decide) (by decide)

/-- C4: whenever `create_ng_setup_failure` returns a byte sequence, its
declared cause-length byte (index 10) equals the cause length plus one, its
trailing bytes (from index 12) are exactly the cause bytes, and its total
length is the cause length plus the 12-byte fixed prefix. -/
theorem C4_failure_template (cause_bytes bs : List Nat)
    (h : NGAPMessage.create_ng_setup_failure cause_bytes = some bs) :
    bs.getD 10 0 = cause_bytes.length + 1 ∧
    bs.drop 12 = cause_bytes ∧
    bs.length = cause_bytes.length + 12 := by
  simp only [NGAPMessage.create_ng_setup_failure] at h
  split at h
  · obtain rfl := Option.some.inj h.symm |>.symm
    refine ⟨?_, ?_, ?_⟩
    · simp [List.getD, List.cons_append]
    · simp [List.drop, List.cons_append]
    · simp [List.length_append]
  · exact absurd h (by simp)

/-- Witness for C4 at the one-character cause "X" (byte 0x58). -/
theorem C4_witness :
    ([0x40, 0x15, 0x00, 0x09, 0x00, 0x00, 0x01, 0x00, 0x0f, 0x40, 0x02, 0x00,
      0x58] : List Nat).getD 10 0 = List.length [0x58] + 1 ∧
    ([0x40, 0x15, 0x00, 0x09, 0x00, 0x00, 0x01, 0x00, 0x0f, 0x40, 0x02, 0x00,
      0x58] : List Nat).drop 12 = [0x58] ∧
    ([0x40, 0x15, 0x00, 0x09, 0x00, 0x00, 0x01, 0x00, 0x0f, 0x40, 0x02, 0x00,
      0x58] : List Nat).length = List.length [0x58] + 12 :=
  C4_failure_template [0x58]
    [0x40, 0x15, 0x00, 0x09, 0x00, 0x00, 0x01, 0x00, 0x0f, 0x40, 0x02, 0x00, 0x58]
    (by decide)

/-- C1: evaluation of the first-message dispatch. A 5-byte first message
whose decoded procedure code is the session-setup code 21 passes the outer
gate, yet the handler sends the failure template, never the success template:
the inner check of `handle_ng_setup_request` requires byte 0 to be 0x00,
which contradicts the outer requirement that byte 0 (the procedure code) be
21, so the success branch is unreachable. A decodable first message with a
different procedure code (here 1) receives no reply at all rather than a
failure template. -/
theorem C1_code_eval :
    NGAPMessage.decode_header [0x15, 0x00, 0x00, 0x00, 0x00] =
      some { procedure_code := 21, criticality := 0, length := 0 } ∧
    MockAMF.processMessage false [0x15, 0x00, 0x00, 0x00, 0x00] =
      ([NGAPMessage.defaultFailure], false) ∧
    NGAPMessage.defaultFailure ≠ NGAPMessage.create_ng_setup_response ∧
    NGAPMessage.decode_header [0x01, 0x00, 0x00, 0x00, 0x00] =
      some { procedure_code := 1, criticality := 0, length := 0 } ∧
    MockAMF.processMessage false [0x01, 0x00, 0x00, 0x00, 0x00] = ([], false) := by
  decide

/-- Counterexample to C8: a short (2-byte) first message produces no reply at
all — the sent-message list is empty, not a failure reply — although the
connection does remain open (the loop continues). -/
theorem C8_counterexample :
    ([0x00, 0x15] : List Nat).length < 4 ∧
    MockAMF.connectionStep true false (.received [0x00, 0x15]) = ([], false, true) := by
  decide

/-- C8 (amended): for every non-empty first message of at most 4 bytes, and
for every decodable first message whose procedure code is not 21, the handler
sends no reply and the connection remains open: the loop neither breaks nor
closes the socket, and no failure reply is emitted. -/
theorem C8_amended (data : List Nat) (hne : data ≠ []) :
    (data.length ≤ 4 →
      MockAMF.connectionStep true false (.received data) = ([], false, true)) ∧
    (∀ header : NGAPHeader, NGAPMessage.decode_header data = some header →
      header.procedure_code ≠ NGAPMessage.NG_SETUP_REQUEST →
      MockAMF.connectionStep true false (.received data) = ([], false, true)) := by
  constructor
  · intro hlen
    simp [MockAMF.connectionStep, hne, MockAMF.processMessage, Nat.not_lt.mpr hlen]
  · intro header hdec hcode
    rcases Nat.lt_or_ge 4 data.length with h4 | h4
    · simp [MockAMF.connectionStep, hne, MockAMF.processMessage, h4, hdec, hcode]
    · simp [MockAMF.connectionStep, hne, MockAMF.processMessage, Nat.not_lt.mpr h4]

/-- Witness for C8 (amended): a concrete 3-byte garbage message gets no
reply and leaves the loop running. -/
theorem C8_witness :
    MockAMF.connectionStep true false (.received [0x01, 0x02, 0x03]) = ([], false, true) :=
  (C8_amended [0x01, 0x02, 0x03] (by decide)).1 (by decide)

/-- Counterexample to C5: the mock-mode receive calls of
`SCTPBridge.handle_mock_amf` carry no configured timeout, so a receive on
that handle is not bounded by the claimed 5-second timeout. -/
theorem C5_counterexample :
    BlockingOp.recvWait none ∈ SCTPBridge.mockModeReceiveOps ∧
    (BlockingOp.recvWait none).timeoutMs = none := by
  constructor
  · simp [SCTPBridge.mockModeReceiveOps]
  · rfl

/-- C5 (amended): the accept waits of both acceptors are bounded by a
1-second poll timeout, the forwarder readiness wait by a 1-second timeout,
and the receives of `MockAMF.handle_ngap_connection` by a 5-second timeout —
but the receives of `SCTPBridge.handle_mock_amf` have no configured timeout
and may block unboundedly. -/
theorem C5_amended (op : BlockingOp) :
    (op ∈ MockAMF.acceptLoopOps → op.timeoutMs = some 1000) ∧
    (op ∈ SCTPBridge.acceptLoopOps → op.timeoutMs = some 1000) ∧
    (op ∈ SCTPBridge.forwarderOps → op.timeoutMs = some 1000) ∧
    (op ∈ MockAMF.receiveOps → op.timeoutMs = some 5000) ∧
    (op ∈ SCTPBridge.mockModeReceiveOps → op.timeoutMs = none) := by
  refine ⟨?_, ?_, ?_, ?_, ?_⟩
  · intro h
    simp only [MockAMF.acceptLoopOps, List.mem_singleton] at h
    subst h; rfl
  · intro h
    simp only [SCTPBridge.acceptLoopOps, List.mem_singleton] at h
    subst h; rfl
  · intro h
    simp only [SCTPBridge.forwarderOps, List.mem_singleton] at h
    subst h; rfl
  · intro h
    simp only [MockAMF.receiveOps, List.mem_singleton] at h
    subst h; rfl
  · intro h
    simp only [SCTPBridge.mockModeReceiveOps, List.mem_cons, List.not_mem_nil,
      or_false, or_self] at h
    subst h; rfl

/-- Witness for C5 (amended) at the accept wait of the mock AMF acceptor. -/
theorem C5_witness :
    (BlockingOp.acceptWait (some 1000)).timeoutMs = some 1000 :=
  (C5_amended (.acceptWait (some 1000))).1 (by simp [MockAMF.acceptLoopOps])

/-- Counterexample to C7: in the bridge variant of the acceptor, handling an
accepted connection leaves the connection registry untouched, so the peer
identifier is never inserted — starting from the empty registry the bridge
initialises, the registry is still empty and contains no identifier. -/
theorem C7_counterexample :
    SCTPBridge.registryEffect [] = [] ∧
    dictHasKey (SCTPBridge.registryEffect []) "127.0.0.1:40000" = false :=
  ⟨rfl, rfl⟩

/-- C7 (amended): in the MockAMF variant, every handled connection is
inserted into the registry under its identifier and its entry is removed at
teardown; in the SCTPBridge variant the per-connection handler performs no
registry operation at all, leaving the registry unchanged. -/
theorem C7_amended (r : List (String × Conn)) (cid : String) (c : Conn) :
    dictHasKey (MockAMF.registerConnection r cid c) cid = true ∧
    dictHasKey (MockAMF.unregisterConnection r cid) cid = false ∧
    SCTPBridge.registryEffect r = r := by
  refine ⟨dictHasKey_dictSet r cid c, ?_, rfl⟩
  cases hb : dictHasKey r cid with
  | true => simp [MockAMF.unregisterConnection, hb, dictHasKey_dictDel]
  | false => simp [MockAMF.unregisterConnection, hb]

/-- C9: `MockAMF.stop` always leaves the registry empty — the `clear()` runs
unconditionally after the close loop, whose per-handle failures are swallowed
so that every tracked handle is processed (the close loop yields one handle
per registry entry regardless of which closes fail). -/
theorem C9_stop_clears (connections : List (String × Conn)) :
    (MockAMF.stop connections).2 = [] ∧
    (MockAMF.stop connections).1.length = connections.length := by
  refine ⟨rfl, ?_⟩
  induction connections with
  | nil => rfl
  | cons p rest ih =>
    obtain ⟨k, c⟩ := p
    simp only [MockAMF.stop, MockAMF.stopCloseLoop, List.length_cons] at ih ⊢
    omega

/-- C6: on each wake of the forwarding loop, at most one read-buffer of 4096
bytes is read from each handle that became readable (the pending stream is
consumed by at most `drop 4096`), and those bytes are appended unmodified to
the other handle (`take 4096` of the pending stream); an empty read on either
side or an exceptional condition on either handle makes the iteration signal
termination; and after the loop ends, `handle_tcp_to_sctp` closes both the
outbound SCTP handle and the inbound TCP handle. -/
theorem C6_forwarder (running tcpReadable sctpReadable exceptional : Bool)
    (st : BridgeConns) :
    ((SCTPBridge.forwardStep running tcpReadable sctpReadable exceptional st).1.tcpIn
        = st.tcpIn ∨
      (SCTPBridge.forwardStep running tcpReadable sctpReadable exceptional st).1.tcpIn
        = st.tcpIn.drop 4096) ∧
    ((SCTPBridge.forwardStep running tcpReadable sctpReadable exceptional st).1.sctpIn
        = st.sctpIn ∨
      (SCTPBridge.forwardStep running tcpReadable sctpReadable exceptional st).1.sctpIn
        = st.sctpIn.drop 4096) ∧
    ((SCTPBridge.forwardStep running tcpReadable sctpReadable exceptional st).1.sctpOut
        = st.sctpOut ∨
      (SCTPBridge.forwardStep running tcpReadable sctpReadable exceptional st).1.sctpOut
        = st.sctpOut ++ st.tcpIn.take 4096) ∧
    ((SCTPBridge.forwardStep running tcpReadable sctpReadable exceptional st).1.tcpOut
        = st.tcpOut ∨
      (SCTPBridge.forwardStep running tcpReadable sctpReadable exceptional st).1.tcpOut
        = st.tcpOut ++ st.sctpIn.take 4096) ∧
    (running = true → tcpReadable = true → st.tcpIn = [] →
      (SCTPBridge.forwardStep running tcpReadable sctpReadable exceptional st).2 = false) ∧
    (running = true → sctpReadable = true → st.sctpIn = [] →
      (SCTPBridge.forwardStep running tcpReadable sctpReadable exceptional st).2 = false) ∧
    (running = true → exceptional = true →
      (SCTPBridge.forwardStep running tcpReadable sctpReadable exceptional st).2 = false) ∧
    (∀ events : List WakeEvent,
      (SCTPBridge.handleBridged events st).sctpClosed = true ∧
      (SCTPBridge.handleBridged events st).tcpClosed = true) := by
  refine ⟨?_, ?_, ?_, ?_, ?_, ?_, ?_, fun events => ⟨rfl, rfl⟩⟩ <;>
    cases running <;> cases tcpReadable <;> cases sctpReadable <;> cases exceptional <;>
    by_cases h1 : st.tcpIn = [] <;> by_cases h2 : st.sctpIn = [] <;>
    simp_all [SCTPBridge.forwardStep, List.take_eq_nil_iff]

/-- Witness for C6 at a concrete wake: with the loop running, the TCP side
readable and its pending stream empty, the iteration signals termination. -/
theorem C6_witness :
    (SCTPBridge.forwardStep true true false false
      { tcpIn := [], sctpIn := [], tcpOut := [], sctpOut := [] }).2 = false :=
  (C6_forwarder true true false false
      { tcpIn := [], sctpIn := [], tcpOut := [], sctpOut := [] }).2.2.2.2.1 rfl rfl rfl
